import Mathlib

/-!
Shallow embedding of the skywalking-php worker daemon (`src/worker.rs`),
covering the bounded relay channel, the per-connection decode loop, the
worker lifecycle (fork child, singleton lock, socket cleanup guard, exit
codes), the sink consumer, and the heartbeat/properties announcer.
-/

namespace SkywalkingWorker

/-- One decoded unit of telemetry (`CollectItem` in the skywalking crate);
opaque to the worker, so modelled as a wrapped payload. -/
structure CollectItem where
  data : Nat
deriving DecidableEq, Repr

/-- Severity of a tracing log event (`debug!` / `info!` / `warn!` / `error!`). -/
inductive LogLevel where
  | debug
  | info
  | warn
  | error
deriving DecidableEq, Repr

/-- One emitted log event. -/
structure LogEvent where
  level : LogLevel
  msg : String
deriving DecidableEq, Repr

/-! ## The bounded mpsc channel (`tokio::sync::mpsc::channel::<CollectItem>(255)`) -/

/-- State of a tokio bounded mpsc channel: fixed capacity, FIFO buffer, and
the two disconnection flags (receiver dropped / all senders dropped). -/
structure Channel (α : Type) where
  capacity : Nat
  buffer : List α
  receiverClosed : Bool
  sendersClosed : Bool
deriving DecidableEq, Repr

/-- A freshly created channel of the given capacity (`mpsc::channel(cap)`). -/
def Channel.new (α : Type) (cap : Nat) : Channel α :=
  { capacity := cap, buffer := [], receiverClosed := false, sendersClosed := false }

/-- Outcome of `Sender::try_send`: success, or a `TrySendError` carrying the
rejected item (`Full` when at capacity, `Closed` when the receiver is gone). -/
inductive TrySendOutcome (α : Type) where
  | ok
  | full (item : α)
  | closed (item : α)
deriving DecidableEq, Repr

/-- Semantics of `Sender::try_send`: never suspends; returns `Closed` if the
receiver was dropped, `Full` if the buffer is at capacity (the item is NOT
stored), otherwise appends the item. -/
def Channel.trySend {α : Type} (ch : Channel α) (x : α) : TrySendOutcome α × Channel α :=
  if ch.receiverClosed then (.closed x, ch)
  else if ch.capacity ≤ ch.buffer.length then (.full x, ch)
  else (.ok, { ch with buffer := ch.buffer ++ [x] })

/-- Outcome of `Receiver::try_recv`: an item, `Empty` (momentarily nothing
buffered) or `Disconnected` (all senders dropped and buffer drained). -/
inductive TryRecvOutcome (α : Type) where
  | item (x : α)
  | empty
  | disconnected
deriving DecidableEq, Repr

/-- Semantics of `Receiver::try_recv`: never suspends; pops the head if any,
otherwise distinguishes an empty-but-open channel from a disconnected one. -/
def Channel.tryRecv {α : Type} (ch : Channel α) : TryRecvOutcome α × Channel α :=
  match ch.buffer with
  | x :: rest => (.item x, { ch with buffer := rest })
  | [] => if ch.sendersClosed then (.disconnected, ch) else (.empty, ch)

/-- Completed-outcome semantics of the blocking `Receiver::recv`: `some` when
`recv` can complete now (an item, or `none` once every sender is dropped and
the buffer is drained); `none` when it would suspend awaiting a sender. -/
def Channel.recvNow {α : Type} (ch : Channel α) : Option (Option α × Channel α) :=
  match ch.buffer with
  | x :: rest => some (some x, { ch with buffer := rest })
  | [] => if ch.sendersClosed then some (none, ch) else none

/-! ## The per-connection decode loop (`start_worker`, inner `loop`) -/

/-- Outcome of one `channel::channel_receive(&mut stream).await`: a decoded
item, an `io::Error` of kind `UnexpectedEof` (peer closed cleanly), or any
other decode/transport error. -/
inductive ReceiveResult where
  | item (i : CollectItem)
  | eof
  | otherError (msg : String)
deriving DecidableEq, Repr

/-- Whether the decode loop keeps looping or returns. -/
inductive LoopControl where
  | next
  | exit
deriving DecidableEq, Repr

/-- Result of one decode-loop iteration: control flow, the updated relay
channel, and the log events the iteration emitted. -/
structure StepResult where
  control : LoopControl
  channel : Channel CollectItem
  logs : List LogEvent
deriving DecidableEq, Repr

/-- One iteration of the decode loop in `start_worker`:
end-of-stream returns after a debug log; any other receive error logs at
error level and continues; a decoded item goes through `tx.try_send` — on
`Full` the item is dropped (error logged, loop continues), on `Closed` the
loop returns after logging. -/
def channelReceiveStep (ch : Channel CollectItem) (r : ReceiveResult) : StepResult :=
  match r with
  | .eof => ⟨.exit, ch, [⟨.debug, "Leaving channel_receive loop"⟩]⟩
  | .otherError _ => ⟨.next, ch, [⟨.error, "channel_receive failed"⟩]⟩
  | .item i =>
    match Channel.trySend ch i with
    | (.ok, ch') => ⟨.next, ch', []⟩
    | (.full _, ch') => ⟨.next, ch', [⟨.error, "Send collect item failed"⟩]⟩
    | (.closed _, ch') => ⟨.exit, ch', [⟨.error, "Send collect item failed"⟩]⟩

/-- Run the decode loop over a finite schedule of receive outcomes; returns
the final channel, the concatenated logs, and whether the loop returned
before exhausting the schedule. -/
def channelReceiveRun (ch : Channel CollectItem) :
    List ReceiveResult → Channel CollectItem × List LogEvent × Bool
  | [] => (ch, [], false)
  | r :: rs =>
    let s := channelReceiveStep ch r
    match s.control with
    | .exit => (s.channel, s.logs, true)
    | .next =>
      let (ch', logs, t) := channelReceiveRun s.channel rs
      (ch', s.logs ++ logs, t)

/-! ## Several concurrent connections sharing the relay channel -/

/-- State of one accepted producer connection: whether its decode loop is
still running. -/
structure ConnState where
  active : Bool
deriving DecidableEq, Repr

/-- State of the decode side of the pipeline: the per-connection loops plus
the single shared relay channel they all send into. -/
structure PipelineState where
  conns : List ConnState
  queue : Channel CollectItem
deriving DecidableEq, Repr

/-- Deliver one receive outcome to connection `idx`: its decode loop takes
one `channelReceiveStep`; an `exit` control deactivates only that
connection. Inactive or absent connections do nothing. -/
def pipelineDecodeStep (s : PipelineState) (idx : Nat) (r : ReceiveResult) :
    PipelineState × List LogEvent :=
  match s.conns.get? idx with
  | none => (s, [])
  | some c =>
    if c.active then
      let step := channelReceiveStep s.queue r
      let c' : ConnState := ⟨match step.control with | .next => true | .exit => false⟩
      ({ conns := s.conns.set idx c', queue := step.channel }, step.logs)
    else (s, [])

/-! ## Relay-queue operation sequences (for the capacity invariant) -/

/-- The fixed relay-queue capacity chosen at daemon start:
`mpsc::channel::<CollectItem>(255)`. -/
def relayQueueCapacity : Nat := 255

/-- An operation some task performs on the shared channel. -/
inductive QueueOp (α : Type) where
  | trySend (x : α)
  | tryRecv
  | recv
  | closeReceiver
  | closeSenders
deriving DecidableEq, Repr

/-- State transition of one channel operation (results discarded). -/
def Channel.applyOp {α : Type} (ch : Channel α) : QueueOp α → Channel α
  | .trySend x => (ch.trySend x).2
  | .tryRecv => ch.tryRecv.2
  | .recv =>
    match ch.recvNow with
    | some (_, ch') => ch'
    | none => ch
  | .closeReceiver => { ch with receiverClosed := true }
  | .closeSenders => { ch with sendersClosed := true }

/-- Run a sequence of channel operations. -/
def Channel.runOps {α : Type} (ch : Channel α) (ops : List (QueueOp α)) : Channel α :=
  ops.foldl Channel.applyOp ch

/-- The relay channel as created in `start_worker`. -/
def relayChannelStart : Channel CollectItem :=
  Channel.new CollectItem relayQueueCapacity

/-! ## Sink consumer (`struct Consumer` implementing `CollectItemConsume`) -/

/-- The boxed error type of the `CollectItemConsume` trait methods. -/
structure ConsumeError where
  msg : String
deriving DecidableEq, Repr

/-- Consumer wrapper over the channel receiver (`struct Consumer`). -/
structure Consumer where
  rx : Channel CollectItem
deriving DecidableEq, Repr

/-- Semantics of `Consumer::consume` (`Ok(self.0.recv().await)`): when the
underlying `recv` can complete, the result is its option wrapped in `Ok`;
`none` means `consume` would suspend. -/
def Consumer.consume (c : Consumer) :
    Option (Except ConsumeError (Option CollectItem) × Consumer) :=
  (c.rx.recvNow).map fun p => (Except.ok p.1, ⟨p.2⟩)

/-- Semantics of `Consumer::try_consume` (`Ok(self.0.try_recv().ok())`):
`try_recv`'s error cases (`Empty` and `Disconnected`) are both mapped to
`Ok(None)` by `.ok()`. -/
def Consumer.tryConsume (c : Consumer) :
    Except ConsumeError (Option CollectItem) × Consumer :=
  match c.rx.tryRecv with
  | (.item x, rx') => (Except.ok (some x), ⟨rx'⟩)
  | (.empty, rx') => (Except.ok none, ⟨rx'⟩)
  | (.disconnected, rx') => (Except.ok none, ⟨rx'⟩)

/-! ## Worker lifecycle (`init_worker`, `start_worker`, `WorkerExitGuard`) -/

/-- Observable side effects of the worker process, in program order. -/
inductive Effect where
  | printAlreadyRunning
  | removeStaleSocketFile
  | bindUnixListener
  | changePermission
  | spawnAcceptLoop
  | reportPropertiesAndKeepAlive
  | runReporter
  | removeSocketFile
deriving DecidableEq, Repr

/-- Semantics of `Drop for WorkerExitGuard`: if the `SOCKET_FILE_PATH` lazy
was ever initialized, attempt `fs::remove_file` on it (logging the info
line, and an error line if the removal fails); otherwise only warn that
the socket file was never created. The drop itself never fails. -/
def workerExitGuardDrop (socketPathCreated : Bool) (removeOk : Bool) :
    List Effect × List LogEvent :=
  if socketPathCreated then
    ([Effect.removeSocketFile],
      ⟨.info, "Remove socket file"⟩ ::
        (if removeOk then [] else [⟨.error, "Remove socket file failed"⟩]))
  else
    ([], [⟨.warn, "Socket file not created"⟩])

/-- Which arm of the top-level `select!` resolves first. -/
inductive RaceWinner where
  | sigTerm
  | sigInt
  | pipeline
deriving DecidableEq, Repr

/-- Environment resolving the external outcomes `start_worker` depends on:
whether the two `signal(...)` registrations succeed, whether
`UnixListener::bind` succeeds, the result of `run_reporter` (`none` = Ok),
which `select!` arm wins, how far the pipeline future progressed when a
signal wins, whether the socket-path lazy was initialized, and whether the
exit-guard removal succeeds. -/
structure WorkerEnv where
  signalRegistrationOk : Bool
  bindOk : Bool
  reporterErr : Option String
  raceWinner : RaceWinner
  futProgress : Nat
  socketPathCreated : Bool
  removeOk : Bool
deriving DecidableEq, Repr

/-- The pipeline future (`fut` in `start_worker`) run to completion: bind the
unix listener (propagating failure), widen permissions, spawn the accept
loop, announce properties/keep-alive, then block on `run_reporter`. The
result is `none` for Ok. -/
def pipelineFut (env : WorkerEnv) : Option String × List Effect :=
  if env.bindOk then
    (env.reporterErr,
      [Effect.bindUnixListener, Effect.changePermission, Effect.spawnAcceptLoop,
        Effect.reportPropertiesAndKeepAlive, Effect.runReporter])
  else
    (some "bind unix listener failed", [Effect.bindUnixListener])

/-- Semantics of `start_worker`: the exit guard is created first, so its
drop effects and logs are appended on every return path. Signal-handler
registration failure returns an error before the pipeline exists. Then the
pipeline future races the two signal waiters: a signal winner yields Ok
(the future's effects are cut at whatever prefix it reached); the pipeline
winning propagates its own result via `r?`. The `info` shutdown log is
only reached on the Ok path. -/
def start_worker (env : WorkerEnv) :
    Option String × List Effect × List LogEvent :=
  let (gdEffs, gdLogs) := workerExitGuardDrop env.socketPathCreated env.removeOk
  if env.signalRegistrationOk then
    match env.raceWinner with
    | .sigTerm =>
      (none, (pipelineFut env).2.take env.futProgress ++ gdEffs,
        ⟨.info, "Start to shutdown skywalking grpc reporter"⟩ :: gdLogs)
    | .sigInt =>
      (none, (pipelineFut env).2.take env.futProgress ++ gdEffs,
        ⟨.info, "Start to shutdown skywalking grpc reporter"⟩ :: gdLogs)
    | .pipeline =>
      let (res, effs) := pipelineFut env
      match res with
      | none =>
        (none, effs ++ gdEffs,
          ⟨.info, "Start to shutdown skywalking grpc reporter"⟩ :: gdLogs)
      | some e => (some e, effs ++ gdEffs, gdLogs)
  else
    (some "signal handler registration failed", gdEffs, gdLogs)

/-- Environment of the forked child branch of `init_worker`: whether
`try_lock_with_pid` acquired the singleton lock, whether a stale socket
file exists at `SOCKET_FILE_PATH`, whether its removal succeeds, and the
worker environment. -/
structure StartupEnv where
  lockAcquired : Bool
  staleSocketExists : Bool
  staleRemoveOk : Bool
  worker : WorkerEnv
deriving DecidableEq, Repr

/-- Semantics of the `Ordering::Equal` (child) branch of `init_worker`: if
the pid lock is already held, print and return — no exit code, no further
effect. Otherwise remove a stale socket file when present (failure only
logged), run `start_worker` on the runtime, and `exit(0)` on Ok or log and
`exit(1)` on Err. Returns the effect trace, logs, and `some code` when the
process calls `exit`. -/
def init_worker_child (env : StartupEnv) :
    List Effect × List LogEvent × Option Nat :=
  if env.lockAcquired then
    let staleEffs := if env.staleSocketExists then [Effect.removeStaleSocketFile] else []
    let staleLogs :=
      if env.staleSocketExists && !env.staleRemoveOk then
        [(⟨.error, "Remove socket file failed"⟩ : LogEvent)]
      else []
    let (res, effs, logs) := start_worker env.worker
    match res with
    | none => (staleEffs ++ effs, staleLogs ++ logs, some 0)
    | some _ =>
      (staleEffs ++ effs,
        staleLogs ++ logs ++ [⟨.error, "worker exit unexpectedly"⟩], some 1)
  else
    ([Effect.printAlreadyRunning], [], none)

/-- The worker process exit code, when the child branch reaches `exit`. -/
def workerExitCode (env : StartupEnv) : Option Nat :=
  (init_worker_child env).2.2

/-! ## Heartbeat / properties announcer (`report_properties_and_keep_alive`) -/

/-- Live host facts read when building instance properties: the OS
information gathered by `Properties::insert_os_info` and the parent
process id returned by `libc::getppid()`. -/
structure HostFacts where
  osInfo : String
  parentPid : Int
deriving DecidableEq, Repr

/-- The instance-properties record assembled by the closure passed to
`Manager::report_and_keep_alive`. -/
structure Properties where
  osInfo : String
  language : String
  processNo : String
deriving DecidableEq, Repr

/-- The closure in `report_properties_and_keep_alive`: a fresh `Properties`
built from the host facts read at call time — os info, the language tag
"php", and the live parent pid rendered as a string. -/
def buildProperties (host : HostFacts) : Properties :=
  { osInfo := host.osInfo, language := "php", processNo := toString host.parentPid }

/-- Modelled from the spec: the body of `Manager::report_and_keep_alive`
lives in the external skywalking crate and is not among this repository's
sources. Per the spec, the announcer runs on the fixed heartbeat period and
each tick rebuilds Instance Properties fresh (no caching — host facts read
live at the tick's time) and emits a properties/keep-alive event; the
report-period multiplier does not change the per-interval emission cadence
of properties events. The result lists the first `n` emissions as
(time, properties) pairs. -/
def managerEmissions (hostAt : Nat → HostFacts) (heartbeatPeriod : Nat)
    (reportPeriodFactor : Nat) (n : Nat) : List (Nat × Properties) :=
  let _ := reportPeriodFactor
  (List.range n).map fun k =>
    (k * heartbeatPeriod, buildProperties (hostAt (k * heartbeatPeriod)))

/-- Semantics of `report_properties_and_keep_alive`: hand the
fresh-properties closure, the configured heartbeat period and the
properties-report period factor to the manager. -/
def report_properties_and_keep_alive (heartbeatPeriod reportPeriodFactor : Nat)
    (hostAt : Nat → HostFacts) (n : Nat) : List (Nat × Properties) :=
  managerEmissions hostAt heartbeatPeriod reportPeriodFactor n

/-! ## Helper lemmas -/

/-- No channel operation changes the fixed capacity. -/
theorem Channel.applyOp_capacity {α : Type} (ch : Channel α) (op : QueueOp α) :
    (ch.applyOp op).capacity = ch.capacity := by
  obtain ⟨cap, buf, rc, sc⟩ := ch
  cases op with
  | trySend x =>
    simp only [Channel.applyOp, Channel.trySend]
    split
    · rfl
    · split <;> rfl
  | tryRecv =>
    cases buf with
    | nil => cases sc <;> rfl
    | cons x rest => rfl
  | recv =>
    cases buf with
    | nil => cases sc <;> rfl
    | cons x rest => rfl
  | closeReceiver => rfl
  | closeSenders => rfl

/-- Every channel operation preserves the buffer-within-capacity invariant. -/
theorem Channel.applyOp_length_le {α : Type} (ch : Channel α) (op : QueueOp α)
    (h : ch.buffer.length ≤ ch.capacity) :
    (ch.applyOp op).buffer.length ≤ (ch.applyOp op).capacity := by
  rw [Channel.applyOp_capacity]
  obtain ⟨cap, buf, rc, sc⟩ := ch
  cases op with
  | trySend x =>
    simp only [Channel.applyOp, Channel.trySend]
    split
    · exact h
    · split
      · exact h
      · next hfull =>
        simp only [List.length_append, List.length_cons, List.length_nil] at h ⊢
        simp only [not_le] at hfull
        omega
  | tryRecv =>
    cases buf with
    | nil => cases sc <;> exact h
    | cons x rest =>
      simp only [List.length_cons] at h
      simpa [Channel.applyOp, Channel.tryRecv] using Nat.le_of_succ_le h
  | recv =>
    cases buf with
    | nil => cases sc <;> exact h
    | cons x rest =>
      simp only [List.length_cons] at h
      simpa [Channel.applyOp, Channel.recvNow] using Nat.le_of_succ_le h
  | closeReceiver => exact h
  | closeSenders => exact h

/-- Running a sequence of operations leaves the capacity unchanged. -/
theorem Channel.runOps_capacity {α : Type} (ops : List (QueueOp α)) (ch : Channel α) :
    (ch.runOps ops).capacity = ch.capacity := by
  induction ops generalizing ch with
  | nil => rfl
  | cons op rest ih =>
    have e : ch.runOps (op :: rest) = (ch.applyOp op).runOps rest := rfl
    rw [e, ih, Channel.applyOp_capacity]

/-- Running a sequence of operations preserves buffer-within-capacity. -/
theorem Channel.runOps_length_le {α : Type} (ops : List (QueueOp α)) (ch : Channel α)
    (h : ch.buffer.length ≤ ch.capacity) :
    (ch.runOps ops).buffer.length ≤ (ch.runOps ops).capacity := by
  induction ops generalizing ch with
  | nil => exact h
  | cons op rest ih =>
    have e : ch.runOps (op :: rest) = (ch.applyOp op).runOps rest := rfl
    rw [e]
    exact ih (ch.applyOp op) (Channel.applyOp_length_le ch op h)

/-! ## Claim theorems -/

/-- C1: for every decoded CollectItem handed to `tx.try_send` in the decode
loop, the step is a total function (never suspends the loop): with spare
capacity the item is appended and the loop continues with no log; at
capacity the item is discarded (buffer unchanged, so never retried), the
failure is logged, and the loop continues; when the send fails because the
receiver side is gone, the failure is logged and the loop returns. -/
theorem decode_loop_try_enqueue_policy (ch : Channel CollectItem) (i : CollectItem) :
    (ch.receiverClosed = false → ch.buffer.length < ch.capacity →
      channelReceiveStep ch (.item i) =
        ⟨.next, { ch with buffer := ch.buffer ++ [i] }, []⟩) ∧
    (ch.receiverClosed = false → ch.capacity ≤ ch.buffer.length →
      channelReceiveStep ch (.item i) =
        ⟨.next, ch, [⟨.error, "Send collect item failed"⟩]⟩) ∧
    (ch.receiverClosed = true →
      channelReceiveStep ch (.item i) =
        ⟨.exit, ch, [⟨.error, "Send collect item failed"⟩]⟩) := by
  refine ⟨fun hrc hlt => ?_, fun hrc hge => ?_, fun hrc => ?_⟩
  · simp [channelReceiveStep, Channel.trySend, hrc, Nat.not_le.mpr hlt]
  · simp [channelReceiveStep, Channel.trySend, hrc, hge]
  · simp [channelReceiveStep, Channel.trySend, hrc]

/-- Witness for C1: all three branches checked at concrete channels — a
one-slot free channel accepts the item; a full channel of capacity 2 drops
it and continues; a closed channel terminates the loop. -/
theorem decode_loop_try_enqueue_policy_witness :
    channelReceiveStep (Channel.mk 2 [⟨1⟩] false false) (.item ⟨9⟩) =
      ⟨.next, Channel.mk 2 [⟨1⟩, ⟨9⟩] false false, []⟩ ∧
    channelReceiveStep (Channel.mk 2 [⟨1⟩, ⟨2⟩] false false) (.item ⟨9⟩) =
      ⟨.next, Channel.mk 2 [⟨1⟩, ⟨2⟩] false false,
        [⟨.error, "Send collect item failed"⟩]⟩ ∧
    channelReceiveStep (Channel.mk 2 [] true false) (.item ⟨9⟩) =
      ⟨.exit, Channel.mk 2 [] true false, [⟨.error, "Send collect item failed"⟩]⟩ :=
  ⟨(decode_loop_try_enqueue_policy (Channel.mk 2 [⟨1⟩] false false) ⟨9⟩).1 rfl (by decide),
    (decode_loop_try_enqueue_policy (Channel.mk 2 [⟨1⟩, ⟨2⟩] false false) ⟨9⟩).2.1 rfl
      (by decide),
    (decode_loop_try_enqueue_policy (Channel.mk 2 [] true false) ⟨9⟩).2.2 rfl⟩

/-- C2: a decode/transport error other than end-of-stream is logged at
error level and leaves the loop running with the channel untouched; on a
whole schedule, a malformed frame contributes only its log line and the
loop goes on to process the remaining frames of the same connection. -/
theorem decode_error_logged_and_loop_continues (ch : Channel CollectItem) (msg : String)
    (rs : List ReceiveResult) :
    channelReceiveStep ch (.otherError msg) =
      ⟨.next, ch, [⟨.error, "channel_receive failed"⟩]⟩ ∧
    channelReceiveRun ch (.otherError msg :: rs) =
      ((channelReceiveRun ch rs).1,
        ⟨.error, "channel_receive failed"⟩ :: (channelReceiveRun ch rs).2.1,
        (channelReceiveRun ch rs).2.2) := by
  refine ⟨rfl, ?_⟩
  show (let s := channelReceiveStep ch (.otherError msg);
    match s.control with
    | .exit => (s.channel, s.logs, true)
    | .next =>
      let (ch', logs, t) := channelReceiveRun s.channel rs
      (ch', s.logs ++ logs, t)) = _
  simp only [channelReceiveStep]
  obtain ⟨ch', logs, t⟩ := channelReceiveRun ch rs
  rfl

/-- C8: the relay queue is a single bounded buffer of capacity 255 fixed at
creation; after any finite sequence of channel operations starting from the
freshly created relay channel, the capacity is still 255 and the buffer
never holds more than 255 items; and `try_send` never suspends — it either
appends the item and reports success, or leaves the channel unchanged
(item discarded) and reports a failure. -/
theorem relay_queue_bounded_and_nonblocking (ops : List (QueueOp CollectItem))
    (ch : Channel CollectItem) (x : CollectItem) :
    relayQueueCapacity = 255 ∧
    (relayChannelStart.runOps ops).capacity = relayQueueCapacity ∧
    (relayChannelStart.runOps ops).buffer.length ≤ relayQueueCapacity ∧
    (((ch.trySend x).1 = .ok ∧ (ch.trySend x).2.buffer = ch.buffer ++ [x]) ∨
      ((ch.trySend x).1 ≠ .ok ∧ (ch.trySend x).2 = ch)) := by
  refine ⟨rfl, Channel.runOps_capacity ops relayChannelStart, ?_, ?_⟩
  · have h := Channel.runOps_length_le ops relayChannelStart (by simp [relayChannelStart, Channel.new])
    rwa [Channel.runOps_capacity ops relayChannelStart] at h
  · by_cases hrc : ch.receiverClosed = true
    · exact Or.inr (by simp [Channel.trySend, hrc])
    · by_cases hfull : ch.capacity ≤ ch.buffer.length
      · exact Or.inr (by simp [Channel.trySend, hrc, hfull])
      · exact Or.inl (by simp [Channel.trySend, hrc, hfull])

/-- C10: the sink consumer's draining operations never return an error:
whenever the blocking `consume` can complete it yields `Ok` of an item or
of `None` (the latter exactly the channel-closed case), and the
non-blocking `try_consume` yields `Ok(None)` on an empty open channel and
on a disconnected one alike — the two are indistinguishable to the caller,
so the error branch of the trait result is unreachable. -/
theorem consumer_drain_never_errors (c : Consumer)
    (p : Except ConsumeError (Option CollectItem) × Consumer) (x : CollectItem)
    (rest : List CollectItem) :
    (∃ o c', Consumer.tryConsume c = (Except.ok o, c')) ∧
    (Consumer.consume c = some p → ∃ o, p.1 = Except.ok o) ∧
    (c.rx.buffer = [] → (Consumer.tryConsume c).1 = Except.ok none) ∧
    (c.rx.buffer = [] → c.rx.sendersClosed = true →
      Consumer.consume c = some (Except.ok none, c)) ∧
    (c.rx.buffer = x :: rest →
      Consumer.consume c = some (Except.ok (some x), ⟨{ c.rx with buffer := rest }⟩)) := by
  obtain ⟨⟨cap, buf, rc, sc⟩⟩ := c
  refine ⟨?_, ?_, ?_, ?_, ?_⟩
  · cases buf with
    | nil =>
      cases sc with
      | false => exact ⟨none, _, rfl⟩
      | true => exact ⟨none, _, rfl⟩
    | cons y ys => exact ⟨some y, _, rfl⟩
  · intro hp
    cases buf with
    | nil =>
      cases sc with
      | false => simp [Consumer.consume, Channel.recvNow] at hp
      | true =>
        have h : some ((Except.ok none : Except ConsumeError (Option CollectItem)),
            (⟨⟨cap, [], rc, true⟩⟩ : Consumer)) = some p := hp
        exact ⟨none, by rw [← Option.some_inj.mp h]⟩
    | cons y ys =>
      have h : some ((Except.ok (some y) : Except ConsumeError (Option CollectItem)),
          (⟨⟨cap, ys, rc, sc⟩⟩ : Consumer)) = some p := hp
      exact ⟨some y, by rw [← Option.some_inj.mp h]⟩
  · intro hbuf
    simp only at hbuf
    subst hbuf
    cases sc with
    | false => rfl
    | true => rfl
  · intro hbuf hsc
    simp only at hbuf hsc
    subst hbuf
    subst hsc
    rfl
  · intro hbuf
    simp only at hbuf
    subst hbuf
    rfl

/-- Witness for C10: checks the theorem's parts at concrete consumers — a
buffered item is drained as `Ok(Some)`, an empty open channel and a
disconnected one both probe as `Ok(None)`, and a drained closed channel
completes the blocking consume with `Ok(None)`. -/
theorem consumer_drain_never_errors_witness :
    (∃ o c', Consumer.tryConsume ⟨Channel.mk 255 [] false false⟩ = (Except.ok o, c')) ∧
    (Consumer.tryConsume ⟨Channel.mk 255 [] false false⟩).1 = Except.ok none ∧
    (Consumer.tryConsume ⟨Channel.mk 255 [] false true⟩).1 = Except.ok none ∧
    Consumer.consume ⟨Channel.mk 255 [] false true⟩ =
      some (Except.ok none, ⟨Channel.mk 255 [] false true⟩) ∧
    Consumer.consume ⟨Channel.mk 255 [⟨7⟩] false false⟩ =
      some (Except.ok (some ⟨7⟩), ⟨Channel.mk 255 [] false false⟩) :=
  ⟨(consumer_drain_never_errors ⟨Channel.mk 255 [] false false⟩
      (Except.ok none, ⟨Channel.mk 255 [] false false⟩) ⟨0⟩ []).1,
    (consumer_drain_never_errors ⟨Channel.mk 255 [] false false⟩
      (Except.ok none, ⟨Channel.mk 255 [] false false⟩) ⟨0⟩ []).2.2.1 rfl,
    (consumer_drain_never_errors ⟨Channel.mk 255 [] false true⟩
      (Except.ok none, ⟨Channel.mk 255 [] false true⟩) ⟨0⟩ []).2.2.1 rfl,
    (consumer_drain_never_errors ⟨Channel.mk 255 [] false true⟩
      (Except.ok none, ⟨Channel.mk 255 [] false true⟩) ⟨0⟩ []).2.2.2.1 rfl rfl,
    (consumer_drain_never_errors ⟨Channel.mk 255 [⟨7⟩] false false⟩
      (Except.ok none, ⟨Channel.mk 255 [] false false⟩) ⟨7⟩ []).2.2.2.2 rfl⟩

/-- C3: end-of-stream on a connection deactivates exactly that connection's
decode loop: every other connection's state and the shared relay channel
are untouched, and the only log emitted is the debug line — no error-level
event. -/
theorem eof_ends_only_that_connection (s : PipelineState) (idx : Nat) (c : ConnState)
    (hget : s.conns.get? idx = some c) (hact : c.active = true) :
    (pipelineDecodeStep s idx .eof).1.conns.get? idx = some ⟨false⟩ ∧
    (∀ j, j ≠ idx → (pipelineDecodeStep s idx .eof).1.conns.get? j = s.conns.get? j) ∧
    (pipelineDecodeStep s idx .eof).1.queue = s.queue ∧
    (pipelineDecodeStep s idx .eof).2 = [⟨.debug, "Leaving channel_receive loop"⟩] ∧
    (∀ e ∈ (pipelineDecodeStep s idx .eof).2, e.level ≠ LogLevel.error) := by
  have hget' : s.conns[idx]? = some c := by
    rw [← List.get?_eq_getElem?]
    exact hget
  have hstep : pipelineDecodeStep s idx .eof =
      ({ conns := s.conns.set idx ⟨false⟩, queue := s.queue },
        [⟨.debug, "Leaving channel_receive loop"⟩]) := by
    simp [pipelineDecodeStep, hget', hact, channelReceiveStep]
  have hlt : idx < s.conns.length := by
    by_contra hge
    rw [List.get?_len_le (Nat.le_of_not_lt hge)] at hget
    exact Option.noConfusion hget
  rw [hstep]
  refine ⟨List.get?_set_eq_of_lt _ hlt, fun j hj => List.get?_set_ne _ _ fun h => hj h.symm,
    rfl, rfl, ?_⟩
  intro e he
  rw [List.mem_singleton] at he
  subst he
  decide

/-- Witness for C3: two live connections; EOF on connection 0 leaves
connection 1 untouched, the queue unchanged, and logs only the debug line. -/
theorem eof_ends_only_that_connection_witness :
    (pipelineDecodeStep ⟨[⟨true⟩, ⟨true⟩], relayChannelStart⟩ 0 .eof).1.conns.get? 0 =
      some ⟨false⟩ ∧
    (pipelineDecodeStep ⟨[⟨true⟩, ⟨true⟩], relayChannelStart⟩ 0 .eof).1.conns.get? 1 =
      some ⟨true⟩ ∧
    (pipelineDecodeStep ⟨[⟨true⟩, ⟨true⟩], relayChannelStart⟩ 0 .eof).1.queue =
      relayChannelStart ∧
    (pipelineDecodeStep ⟨[⟨true⟩, ⟨true⟩], relayChannelStart⟩ 0 .eof).2 =
      [⟨.debug, "Leaving channel_receive loop"⟩] :=
  ⟨(eof_ends_only_that_connection ⟨[⟨true⟩, ⟨true⟩], relayChannelStart⟩ 0 ⟨true⟩ rfl rfl).1,
    (eof_ends_only_that_connection ⟨[⟨true⟩, ⟨true⟩], relayChannelStart⟩ 0 ⟨true⟩ rfl
      rfl).2.1 1 (by decide),
    (eof_ends_only_that_connection ⟨[⟨true⟩, ⟨true⟩], relayChannelStart⟩ 0 ⟨true⟩ rfl
      rfl).2.2.1,
    (eof_ends_only_that_connection ⟨[⟨true⟩, ⟨true⟩], relayChannelStart⟩ 0 ⟨true⟩ rfl
      rfl).2.2.2.1⟩

/-- C4: once the singleton lock is held and startup succeeded (signal
handlers registered, socket bound), the worker process exits with code 0
when a termination or interrupt signal wins the race or the pipeline
completes cleanly, and exits 1 exactly when the pipeline future ends with a
fatal reporter (sink) error — the only runtime error class that ends the
daemon outside of explicit signals. -/
theorem worker_exit_code_policy (env : StartupEnv)
    (hlock : env.lockAcquired = true)
    (hsig : env.worker.signalRegistrationOk = true)
    (hbind : env.worker.bindOk = true) :
    ((env.worker.raceWinner = .sigTerm ∨ env.worker.raceWinner = .sigInt) →
      workerExitCode env = some 0) ∧
    (env.worker.raceWinner = .pipeline → env.worker.reporterErr = none →
      workerExitCode env = some 0) ∧
    (workerExitCode env = some 1 ↔
      env.worker.raceWinner = .pipeline ∧ env.worker.reporterErr ≠ none) := by
  obtain ⟨lock, stale, staleOk, sig, bnd, rep, winner, prog, spc, rok⟩ := env
  simp only at hlock hsig hbind
  subst hlock hsig hbind
  cases winner <;> cases rep <;>
    simp [workerExitCode, init_worker_child, start_worker, pipelineFut, workerExitGuardDrop]

/-- Witness for C4: a signal-requested shutdown exits 0 and a pipeline that
ends with a sink error exits 1, at concrete environments. -/
theorem worker_exit_code_policy_witness :
    workerExitCode ⟨true, false, true, true, true, none, .sigTerm, 0, true, true⟩ = some 0 ∧
    workerExitCode ⟨true, false, true, true, true, some "sink", .pipeline, 0, true, true⟩ =
      some 1 :=
  ⟨(worker_exit_code_policy ⟨true, false, true, true, true, none, .sigTerm, 0, true, true⟩
      rfl rfl rfl).1 (Or.inl rfl),
    (worker_exit_code_policy
      ⟨true, false, true, true, true, some "sink", .pipeline, 0, true, true⟩
      rfl rfl rfl).2.2.mpr ⟨rfl, by decide⟩⟩

/-- C5: when the singleton pid-lock is already held by a live process, the
forked child only prints the already-running notice and returns: it never
reaches the stale-socket removal, the listener bind, or any other effect,
and calls no `exit`. -/
theorem already_running_no_side_effects (env : StartupEnv)
    (h : env.lockAcquired = false) :
    init_worker_child env = ([Effect.printAlreadyRunning], [], none) ∧
    Effect.bindUnixListener ∉ (init_worker_child env).1 ∧
    Effect.removeStaleSocketFile ∉ (init_worker_child env).1 ∧
    Effect.removeSocketFile ∉ (init_worker_child env).1 := by
  have e : init_worker_child env = ([Effect.printAlreadyRunning], [], none) := by
    simp [init_worker_child, h]
  refine ⟨e, ?_, ?_, ?_⟩ <;> rw [e] <;> decide

/-- Witness for C5: a concrete environment whose lock is already held. -/
theorem already_running_no_side_effects_witness :
    init_worker_child ⟨false, true, true, true, true, none, .pipeline, 0, true, true⟩ =
      ([Effect.printAlreadyRunning], [], none) :=
  (already_running_no_side_effects
    ⟨false, true, true, true, true, none, .pipeline, 0, true, true⟩ rfl).1

/-- C6: with the lock acquired and a stale socket file present, the very
first effect of the child is the stale-socket removal (so it precedes any
bind); and a bind failure when the pipeline future resolves is fatal to
startup — the worker future returns an error, `run_reporter` is never
reached, and the process exits 1. -/
theorem stale_cleanup_precedes_bind_and_bind_failure_fatal (env : StartupEnv)
    (hlock : env.lockAcquired = true)
    (hstale : env.staleSocketExists = true) :
    (init_worker_child env).1.head? = some Effect.removeStaleSocketFile ∧
    (env.worker.bindOk = false → env.worker.raceWinner = .pipeline →
      (start_worker env.worker).1.isSome = true ∧
      Effect.runReporter ∉ (start_worker env.worker).2.1 ∧
      workerExitCode env = some 1) := by
  obtain ⟨lock, stale, staleOk, sig, bnd, rep, winner, prog, spc, rok⟩ := env
  simp only at hlock hstale
  subst hlock hstale
  constructor
  · rcases hsw : start_worker ⟨sig, bnd, rep, winner, prog, spc, rok⟩ with ⟨res, effs, logs⟩
    cases res <;> simp [init_worker_child, hsw]
  · intro hbnd hwin
    simp only at hbnd hwin
    subst hbnd hwin
    cases sig <;> cases spc <;>
      simp [workerExitCode, init_worker_child, start_worker, pipelineFut, workerExitGuardDrop]

/-- Witness for C6: concrete environment with a stale socket and a failing
bind resolved by the pipeline arm. -/
theorem stale_cleanup_precedes_bind_and_bind_failure_fatal_witness :
    (init_worker_child ⟨true, true, true, true, false, none, .pipeline, 0, true, true⟩).1.head? =
      some Effect.removeStaleSocketFile ∧
    (start_worker ⟨true, false, none, .pipeline, 0, true, true⟩).1.isSome = true ∧
    Effect.runReporter ∉ (start_worker ⟨true, false, none, .pipeline, 0, true, true⟩).2.1 ∧
    workerExitCode ⟨true, true, true, true, false, none, .pipeline, 0, true, true⟩ = some 1 :=
  ⟨(stale_cleanup_precedes_bind_and_bind_failure_fatal
      ⟨true, true, true, true, false, none, .pipeline, 0, true, true⟩ rfl rfl).1,
    (stale_cleanup_precedes_bind_and_bind_failure_fatal
      ⟨true, true, true, true, false, none, .pipeline, 0, true, true⟩ rfl rfl).2 rfl rfl⟩

/-- C7: on every shutdown path of `start_worker` — normal completion,
termination/interrupt signal, signal-registration failure, or a
pipeline-fatal error — the exit guard's socket-file removal is the last
effect; and when the socket path was never created the guard performs no
filesystem effect and only logs the warning. -/
theorem socket_removed_on_every_shutdown_path (env : WorkerEnv) :
    (env.socketPathCreated = true →
      (start_worker env).2.1.getLast? = some Effect.removeSocketFile) ∧
    (env.socketPathCreated = false →
      Effect.removeSocketFile ∉ (start_worker env).2.1 ∧
      (⟨LogLevel.warn, "Socket file not created"⟩ : LogEvent) ∈ (start_worker env).2.2) := by
  obtain ⟨sig, bnd, rep, winner, prog, spc, rok⟩ := env
  constructor
  · intro hspc
    simp only at hspc
    subst hspc
    cases sig <;> cases winner <;> cases rep <;> cases bnd <;>
      simp [start_worker, pipelineFut, workerExitGuardDrop, List.getLast?_concat]
  · intro hspc
    simp only at hspc
    subst hspc
    cases sig <;> cases winner <;> cases rep <;> cases bnd <;>
      constructor <;>
        simp [start_worker, pipelineFut, workerExitGuardDrop] <;>
          (intro h; have := List.take_subset prog _ h; simp at this)

/-- Witness for C7: at a concrete signal-shutdown environment the removal is
the final effect, and at one whose socket path was never created the guard
only warns. -/
theorem socket_removed_on_every_shutdown_path_witness :
    (start_worker ⟨true, true, none, .sigTerm, 5, true, true⟩).2.1.getLast? =
      some Effect.removeSocketFile ∧
    Effect.removeSocketFile ∉ (start_worker ⟨false, true, none, .sigInt, 0, false, true⟩).2.1 ∧
    (⟨LogLevel.warn, "Socket file not created"⟩ : LogEvent) ∈
      (start_worker ⟨false, true, none, .sigInt, 0, false, true⟩).2.2 :=
  ⟨(socket_removed_on_every_shutdown_path ⟨true, true, none, .sigTerm, 5, true, true⟩).1 rfl,
    ((socket_removed_on_every_shutdown_path ⟨false, true, none, .sigInt, 0, false, true⟩).2
      rfl).1,
    ((socket_removed_on_every_shutdown_path ⟨false, true, none, .sigInt, 0, false, true⟩).2
      rfl).2⟩

/-- C9: the announcer emits exactly one properties event per heartbeat
interval — the k-th emission happens at time k·period regardless of the
report-period multiplier and of any telemetry (neither is an input of the
emission schedule) — and each tick's record is rebuilt fresh from the host
facts read live at that tick: os info, the "php" language tag, and the
current parent pid. -/
theorem announcer_fresh_properties_each_interval (hostAt : Nat → HostFacts)
    (p f n k : Nat) (hk : k < n) :
    (report_properties_and_keep_alive p f hostAt n).length = n ∧
    (report_properties_and_keep_alive p f hostAt n).get? k =
      some (k * p, buildProperties (hostAt (k * p))) ∧
    buildProperties (hostAt (k * p)) =
      ⟨(hostAt (k * p)).osInfo, "php", toString (hostAt (k * p)).parentPid⟩ := by
  refine ⟨?_, ?_, rfl⟩
  · simp [report_properties_and_keep_alive, managerEmissions]
  · show ((List.range n).map fun j => (j * p, buildProperties (hostAt (j * p)))).get? k = _
    rw [List.get?_map, List.get?_range hk]
    rfl

/-- Host facts that change over time, for exercising the announcer model. -/
def sampleHostAt : Nat → HostFacts :=
  fun t => { osInfo := "linux", parentPid := Int.ofNat t }

/-- Witness for C9: heartbeat interval 1 and multiplier 3 — three ticks give
three emissions, and the emission at tick 2 carries the properties built
from the host facts current at time 2. -/
theorem announcer_fresh_properties_each_interval_witness :
    (report_properties_and_keep_alive 1 3 sampleHostAt 3).length = 3 ∧
    (report_properties_and_keep_alive 1 3 sampleHostAt 3).get? 2 =
      some (2 * 1, buildProperties (sampleHostAt (2 * 1))) :=
  ⟨(announcer_fresh_properties_each_interval sampleHostAt 1 3 3 2 (by decide)).1,
    (announcer_fresh_properties_each_interval sampleHostAt 1 3 3 2 (by decide)).2.1⟩

end SkywalkingWorker
